import Mathlib

/-!
Verification of the Salus per-operator execution task (`ExecTask`,
`src/oplibraries/tensorflow/v2/exectask.cpp`) against its natural-language
specification.  The development shallowly embeds the resource-estimation
algorithm (`ExecTask::estimatedUsage`), the `prepare` / `releasePreAllocation`
pair, and the `run` / `finish` / `maybeMemoryFailure` cycle as pure Lean
functions over explicit state and environment records, and proves (or
refutes) the spec's claims about them.
-/

namespace Salus

/-- Device kinds, from `execution/devices.h` (`DeviceType::CPU/GPU`). -/
inductive DeviceType where
  | CPU
  | GPU
deriving DecidableEq, Repr

/-- The `DeviceSpec` value type — a device kind plus ordinal, from `execution/devices.h`. -/
structure DeviceSpec where
  type : DeviceType
  id : Nat
deriving DecidableEq, Repr

/-- Resource kinds; `ResourceType::MEMORY` is the one `ExecTask` uses. -/
inductive ResourceType where
  | MEMORY
  | COMPUTE
deriving DecidableEq, Repr

/-- A `ResourceTag` — `(ResourceKind, DeviceSpec)` pair keying a `ResourceMap`. -/
abbrev ResourceTag := ResourceType × DeviceSpec

/-- A `ResourceMap` (`Resources` in the source) — a mapping from tags to
quantities, modelled point-wise with default 0 (absent entry = 0). -/
abbrev ResourceMap := ResourceTag → ℚ

/-- The empty `ResourceMap`. -/
def emptyRes : ResourceMap := fun _ => 0

/-- Point update of a `ResourceMap`, modelling `res[tag] = v`. -/
def updateRes (m : ResourceMap) (t : ResourceTag) (v : ℚ) : ResourceMap :=
  fun t' => if t' = t then v else m t'

/-- Modelled from the spec: `resources::merge` from `execution/resources.h`
(declared outside src/): point-wise addition of two maps, missing = 0. -/
def mergeRes (a b : ResourceMap) : ResourceMap := fun t => a t + b t

/-- Modelled from the spec: `resources::scale` from `execution/resources.h`
(declared outside src/): point-wise multiplication by a scalar. -/
def scaleRes (k : ℚ) (m : ResourceMap) : ResourceMap := fun t => k * m t

/-- The `SessionUsage` record as returned by `SessionResourceTracker::instance().usage`:
the session's observed temporary and persistent resource maps.  The field
spelling `persistant` follows the source. -/
structure SessionUsage where
  temporary : ResourceMap
  persistant : ResourceMap

/-- Memory type of an output, from the kernel registry
(`tf::HOST_MEMORY` / `tf::DEVICE_MEMORY`). -/
inductive MemType where
  | HOST_MEMORY
  | DEVICE_MEMORY
deriving DecidableEq, Repr

/-- Shape information for one output of the node, as exposed by the
shape-inference context: `none` when the rank is unknown
(`!ctx->RankKnown(shp)`), otherwise the list of dimensions, each `none`
when its value is unknown (`!ctx->ValueKnown(dim)`). -/
abbrev ShapeOut := Option (List (Option Nat))

/-- External collaborators read by `ExecTask::estimatedUsage`:
the session resource tracker, the shape-inference context for the node,
and the kernel-registry memory-type lookup (`mtypeOk` is the combined
status of `LookupDevice` and `tf::remote::MemoryTypesForNode`). -/
structure EstEnv where
  sessionUsage : Option SessionUsage
  shapeCtx : Option (List ShapeOut)
  mtypeOk : Bool
  outputMTypes : List MemType
  outputDtypeSizes : List Nat

/-- The slice of `ExecTask` state that `estimatedUsage` reads and writes:
`failureTimes`, `maxFailures` and the per-device cache `cachedUsage`. -/
structure EstState where
  failureTimes : Nat
  maxFailures : Nat
  cachedUsage : DeviceSpec → Option ResourceMap

/-- Point update of the per-device cache, modelling `cachedUsage[dev] = m`. -/
def updateCache (c : DeviceSpec → Option ResourceMap) (d : DeviceSpec)
    (m : Option ResourceMap) : DeviceSpec → Option ResourceMap :=
  fun d' => if d' = d then m else c d'

/-- Result of one call to `estimatedUsage`: the returned map, the updated
task state, and whether the call queried the session tracker. -/
structure EstResult where
  res : ResourceMap
  st : EstState
  readTracker : Bool

/-- The product-of-known-dims loop of `estimatedUsage` (exectask.cpp:211-222):
`count` starts at 1 and each dimension with a known value multiplies it;
dimensions with unknown value are skipped (`continue`). -/
def dimCount (dims : List (Option Nat)) : Nat :=
  dims.foldl (fun c d => match d with
    | some v => c * v
    | none => c) 1

/-- The per-output charging loop of `estimatedUsage` (exectask.cpp:204-232),
written as structural recursion over the per-output shape list with the
running output index `i`.  An output with unknown rank is skipped
(`continue` at line 208); otherwise `count * DataTypeSize(dtype)` is added
to `cpuTag` when the memory-type lookup succeeded and reported
`HOST_MEMORY`, and to `devTag` otherwise. -/
def chargeOutputs (env : EstEnv) (devTag cpuTag : ResourceTag) (i : Nat)
    (outs : List ShapeOut) (res : ResourceMap) : ResourceMap :=
  match outs with
  | [] => res
  | shp :: rest =>
    let res' :=
      match shp with
      | none => res
      | some dims =>
        let subtotal : ℚ := (dimCount dims : ℚ) * (env.outputDtypeSizes.getD i 0 : ℚ)
        let tag := if env.mtypeOk = true
                      ∧ env.outputMTypes.getD i MemType.DEVICE_MEMORY = MemType.HOST_MEMORY
                   then cpuTag else devTag
        updateRes res tag (res tag + subtotal)
    chargeOutputs env devTag cpuTag (i + 1) rest res'

/-- The shape-inference ("slow") path of `estimatedUsage`
(exectask.cpp:178-234).  When shape information is missing the result is
the (freshly inserted) empty map.  Note that the source builds *both*
`devTag` and `cpuTag` from `dev` (exectask.cpp:201-202), so host-memory
outputs are in fact charged against `(MEMORY, dev)`. -/
def slowPath (env : EstEnv) (dev : DeviceSpec) : ResourceMap :=
  match env.shapeCtx with
  | none => emptyRes
  | some outs =>
    let devTag : ResourceTag := (ResourceType.MEMORY, dev)
    let cpuTag : ResourceTag := (ResourceType.MEMORY, dev)
    chargeOutputs env devTag cpuTag 0 outs emptyRes

/-- Embedding of `ExecTask::estimatedUsage` (exectask.cpp:146-235).  When
`failureTimes > 0` the session tracker is queried; if it has usage for the
session, temporary and persistent usage are merged, scaled by
`1 / 2^(maxFailures + 1 - min(failureTimes, maxFailures))`, and stored in
`cachedUsage[dev]`.  Then the cache is consulted; on a miss the
shape-inference path computes the value and caches it (the C++ inserts the
default-constructed entry via `cachedUsage[dev]` even when shape
information is missing). -/
def estimatedUsage (env : EstEnv) (st : EstState) (dev : DeviceSpec) : EstResult :=
  let empirical : EstState × Bool :=
    if 0 < st.failureTimes then
      match env.sessionUsage with
      | some su =>
        let merged := mergeRes su.temporary su.persistant
        let f := if st.maxFailures < st.failureTimes then st.maxFailures else st.failureTimes
        let scale : ℚ := (2 : ℚ) ^ (st.maxFailures + 1 - f)
        let shrunk := scaleRes (1 / scale) merged
        ({ st with cachedUsage := updateCache st.cachedUsage dev (some shrunk) }, true)
      | none => (st, true)
    else (st, false)
  let st1 := empirical.1
  match st1.cachedUsage dev with
  | some r => ⟨r, st1, empirical.2⟩
  | none =>
    let r := slowPath env dev
    ⟨r, { st1 with cachedUsage := updateCache st1.cachedUsage dev (some r) }, empirical.2⟩

/-! ## The prepare / releasePreAllocation pair -/

/-- Operations a task can perform on the `ResourceMonitor`. -/
inductive MonOp where
  | reserveOp
  | freeOp (ticket : Nat)
deriving DecidableEq, Repr

/-- A `ResourceContext` — `{ spec, ticket, resMon }`; the monitor pointer is
modelled by its presence (`hasResMon`). -/
structure ResourceContext where
  spec : DeviceSpec
  ticket : Nat
  hasResMon : Bool
deriving DecidableEq, Repr

/-- The slice of `ExecTask` state that `prepare` writes: the stored
`ResourceContext` `rctx` and the adopted kernel `op_kernel`
(modelled by whether it is set). -/
structure PrepState where
  rctx : ResourceContext
  opKernel : Option Unit

/-- External collaborators of `ExecTask::prepare`: the supported device
types computed in the constructor, the outcome of `LookupDevice`, and the
global kernel cache probed through `find_kernel` (`some devName` = a kernel
for this node exists, recorded on device `devName`, the empty string
meaning the device was not remembered; `findOk` is `find_kernel`'s
status). -/
structure PrepEnv where
  supportedTypes : List DeviceType
  lookupOk : Bool
  findOk : Bool
  kernelCache : Option String
deriving DecidableEq, Repr

/-- The device name `ExecTask::LookupDevice` builds from a `DeviceSpec`
(exectask.cpp:246-260): `"CPU:" + id` or `"GPU:" + id`. -/
def deviceName (spec : DeviceSpec) : String :=
  (match spec.type with
   | DeviceType.CPU => "CPU:"
   | DeviceType.GPU => "GPU:") ++ toString spec.id

/-- Result of one call to `prepare`: the returned boolean, the updated
task state, the list of `ResourceMonitor` operations performed during the
call, and the kernel cache after the call. -/
structure PrepResult where
  ok : Bool
  st : PrepState
  monOps : List MonOp
  cacheAfter : Option String

/-- Embedding of `ExecTask::prepare` (exectask.cpp:91-137).  `rctx = ctx` is executed
first, before any validation.  The call rejects when `ctx.spec.type` is
not supported, when `LookupDevice` fails, when a cached kernel's recorded
device name is empty, or when it differs from the looked-up device's name;
it never touches the `ResourceMonitor` and never writes the kernel cache
(`find_kernel` only reads it). -/
def prepare (env : PrepEnv) (st : PrepState) (ctx : ResourceContext) : PrepResult :=
  let st := { st with rctx := ctx }
  if env.supportedTypes.contains ctx.spec.type = false then
    ⟨false, st, [], env.kernelCache⟩
  else if env.lookupOk = false then
    ⟨false, st, [], env.kernelCache⟩
  else
    let st := { st with opKernel := none }
    if env.findOk = true then
      match env.kernelCache with
      | some devName =>
        if devName = "" then
          ⟨false, st, [], env.kernelCache⟩
        else if devName = deviceName ctx.spec then
          ⟨true, { st with opKernel := some () }, [], env.kernelCache⟩
        else
          ⟨false, st, [], env.kernelCache⟩
      | none => ⟨true, st, [], env.kernelCache⟩
    else
      ⟨true, st, [], env.kernelCache⟩

/-- Embedding of `ExecTask::releasePreAllocation` (exectask.cpp:139-144): when the
stored context has a monitor, free its ticket. -/
def releasePreAllocation (st : PrepState) : List MonOp :=
  if st.rctx.hasResMon = true then [MonOp.freeOp st.rctx.ticket] else []

/-! ## The run / finish / maybeMemoryFailure cycle -/

/-- Status of the kernel computation (`ctx.status()` after `Compute` /
`ComputeAsync`): OK, `RESOURCE_EXHAUSTED`, or any other error. -/
inductive KStatus where
  | ok
  | resourceExhausted
  | error
deriving DecidableEq, Repr, Fintype

/-- Observable events of one `run` cycle, in the order they occur. -/
inductive Event where
  | setupKernel
  | prepInputs
  | compute
  | processOut
  | clearInputs
  | propagate
  | consumeAcc
  | markCompleted
  | nodeDone
  | launched
  | notify
  | doneEv
  | memFail
deriving DecidableEq, Repr

/-- The branch conditions one `run` cycle inspects.  `needSetup` is
`op_kernel == nullptr` at entry to `run`. -/
structure RunFlags where
  needSetup : Bool
  setupOk : Bool
  kernelIsAsync : Bool
  hasRefInput : Bool
  allocAttrOk : Bool
  isDead : Bool
  isTransfer : Bool
  prepInputsOk : Bool
  kstatus : KStatus
  procOutOk : Bool
  recordAccess : Bool
  memFailureSupplied : Bool
deriving DecidableEq

/-- Configuration of one `run` cycle: the branch conditions plus the data
`run` forwards — the node's output count (`item.num_outputs`) and the
entries `ProcessOutputs` produces (`procOuts`, abstracted to emptiness
bits). -/
structure RunCfg extends RunFlags where
  numOutputs : Nat
  procOuts : List Bool

/-- Result of one `run` cycle: the event trace (for the async branch, the
events of `run` itself followed by those of the `asyncDone` continuation),
the entry vector handed to `PropagateOutputs` (`none` when propagation did
not happen; `false` entries are empty), the increment applied to
`failureTimes`, and the status passed to `done` (`none` when `done` did
not fire). -/
structure RunResult where
  trace : List Event
  propagated : Option (List Bool)
  failDelta : Nat
  doneStatus : Option KStatus

/-- Events of `ExecTask::finish` (exectask.cpp:509-529), also mirroring
the tail of `asyncDone` (exectask.cpp:424-432): mark completed, `NodeDone`,
then (sync only) `launched`, then `num_finished_ops.notify()`, then `done`
last. -/
def finishEvents (isAsync : Bool) : List Event :=
  [Event.markCompleted, Event.nodeDone]
    ++ (if isAsync then [] else [Event.launched])
    ++ [Event.notify, Event.doneEv]

/-- The status `ProcessOutputs` reports: the kernel context's error when
the kernel failed (non-OOM), otherwise the outcome of output processing. -/
def postStatus (f : RunFlags) : KStatus :=
  if f.kstatus = KStatus.error then KStatus.error
  else if f.procOutOk = true then KStatus.ok else KStatus.error

/-- Events shared by the sync tail and `asyncDone` after a non-OOM kernel
completion: `ProcessOutputs`, clear inputs, propagate on success, hand the
accessed-tensor list to the device when recording (the recorded list is
modelled as non-empty), then the finish sequence. -/
def postEvents (f : RunFlags) (isAsync : Bool) : List Event :=
  [Event.processOut, Event.clearInputs]
    ++ (if postStatus f = KStatus.ok then [Event.propagate] else [])
    ++ (if postStatus f = KStatus.ok ∧ f.recordAccess = true then [Event.consumeAcc] else [])
    ++ finishEvents isAsync

/-- Embedding of `ExecTask::run` (exectask.cpp:278-491) together with
`maybeMemoryFailure` (exectask.cpp:493-507) and the `asyncDone`
continuation, as one cycle.  The debug-build `assert(!has_ref_input)` on
the OOM path is modelled as a no-op (NDEBUG behaviour).  Async events are
linearised in the intended order: `run` fires `launched` after enqueueing
the kernel, and `asyncDone` runs afterwards. -/
def run (c : RunCfg) : RunResult :=
  let pre0 : List Event := if c.needSetup then [Event.setupKernel] else []
  if c.needSetup = true ∧ c.setupOk = false then
    -- SetupKernel failed: finish(s) and return (exectask.cpp:288-295)
    ⟨pre0 ++ finishEvents false, none, 0, some KStatus.error⟩
  else if c.allocAttrOk = false then
    -- SetAllocAttrForNode failed (exectask.cpp:309-313)
    ⟨pre0 ++ finishEvents false, none, 0, some KStatus.error⟩
  else if c.isDead = true ∧ c.isTransfer = false then
    -- dead non-transfer node: skip compute, outputs.resize(num_outputs),
    -- then the common postprocess (exectask.cpp:348-349, 464-487)
    ⟨pre0 ++ [Event.clearInputs, Event.propagate] ++ finishEvents false,
     some (List.replicate c.numOutputs false), 0, some KStatus.ok⟩
  else if c.prepInputsOk = false then
    -- PrepareInputs failed: clear inputs, finish(s) (exectask.cpp:353-364)
    ⟨pre0 ++ [Event.prepInputs, Event.clearInputs] ++ finishEvents false,
     none, 0, some KStatus.error⟩
  else if c.kernelIsAsync = true then
    -- async branch (exectask.cpp:372-436, 489)
    let pre := pre0 ++ [Event.prepInputs, Event.compute, Event.launched]
    if c.kstatus = KStatus.resourceExhausted then
      ⟨pre ++ (if c.memFailureSupplied then [Event.memFail] else []), none, 1, none⟩
    else
      ⟨pre ++ postEvents c.toRunFlags true,
       if postStatus c.toRunFlags = KStatus.ok then some c.procOuts else none,
       0, some (postStatus c.toRunFlags)⟩
  else
    -- sync branch (exectask.cpp:437-461, 464-487)
    let pre := pre0 ++ [Event.prepInputs, Event.compute]
    if c.kstatus = KStatus.resourceExhausted then
      ⟨pre ++ (if c.memFailureSupplied then [Event.memFail] else []), none, 1, none⟩
    else
      ⟨pre ++ postEvents c.toRunFlags false,
       if postStatus c.toRunFlags = KStatus.ok then some c.procOuts else none,
       0, some (postStatus c.toRunFlags)⟩

/-- The possible tails of an OOM cycle: `memFailure` fired or not. -/
def oomTails : List (List Event) := [[], [Event.memFail]]

/-- The possible shapes of `postEvents`: propagation and accessed-tensor
hand-off both happen, only propagation, or neither. -/
def postTails (isAsync : Bool) : List (List Event) :=
  [[Event.propagate, Event.consumeAcc], [Event.propagate], []].map
    (fun mid => [Event.processOut, Event.clearInputs] ++ mid ++ finishEvents isAsync)

/-- Every event trace one `run` cycle can produce. -/
def allTraces : List (List Event) :=
  ([([] : List Event), [Event.setupKernel]]).flatMap fun pre0 =>
    [pre0 ++ finishEvents false,
     pre0 ++ [Event.clearInputs, Event.propagate] ++ finishEvents false,
     pre0 ++ [Event.prepInputs, Event.clearInputs] ++ finishEvents false]
    ++ (oomTails.map fun t => pre0 ++ [Event.prepInputs, Event.compute, Event.launched] ++ t)
    ++ ((postTails true).map fun t => pre0 ++ [Event.prepInputs, Event.compute, Event.launched] ++ t)
    ++ (oomTails.map fun t => pre0 ++ [Event.prepInputs, Event.compute] ++ t)
    ++ ((postTails false).map fun t => pre0 ++ [Event.prepInputs, Event.compute] ++ t)

/-- Every cycle's trace is one of the `allTraces` templates, by walking
`run`'s decision tree. -/
lemma run_trace_mem (c : RunCfg) : (run c).trace ∈ allTraces := by
  by_cases h2 : c.allocAttrOk = false
  · rcases hns : c.needSetup with _ | _ <;> rcases hso : c.setupOk with _ | _ <;>
      simp [run, h2, hns, hso] <;> decide
  · by_cases h3 : c.isDead = true ∧ c.isTransfer = false
    · rcases hns : c.needSetup with _ | _ <;> rcases hso : c.setupOk with _ | _ <;>
        simp [run, h2, h3, hns, hso] <;> decide
    · by_cases h4 : c.prepInputsOk = false
      · rcases hns : c.needSetup with _ | _ <;> rcases hso : c.setupOk with _ | _ <;>
          simp [run, h2, h3, h4, hns, hso] <;> decide
      · rcases hks : c.kstatus with _ | _ | _
        · rcases hns : c.needSetup with _ | _ <;> rcases hso : c.setupOk with _ | _ <;>
            rcases hka : c.kernelIsAsync with _ | _ <;>
            rcases hpo : c.procOutOk with _ | _ <;> rcases hra : c.recordAccess with _ | _ <;>
            simp [run, postEvents, postStatus, h2, h3, h4, hns, hso, hka, hks, hpo, hra] <;>
            decide
        · rcases hns : c.needSetup with _ | _ <;> rcases hso : c.setupOk with _ | _ <;>
            rcases hka : c.kernelIsAsync with _ | _ <;>
            rcases hmf : c.memFailureSupplied with _ | _ <;>
            simp [run, h2, h3, h4, hns, hso, hka, hks, hmf] <;> decide
        · rcases hns : c.needSetup with _ | _ <;> rcases hso : c.setupOk with _ | _ <;>
            rcases hka : c.kernelIsAsync with _ | _ <;>
            rcases hpo : c.procOutOk with _ | _ <;> rcases hra : c.recordAccess with _ | _ <;>
            simp [run, postEvents, postStatus, h2, h3, h4, hns, hso, hka, hks, hpo, hra] <;>
            decide

/-! ## Supporting lemmas about the estimation paths -/

/-- The clamp `if maxFailures < failureTimes then maxFailures else failureTimes`
in the empirical path is the minimum of the two. -/
lemma clamp_eq_min (k M : Nat) : (if M < k then M else k) = min k M := by
  rcases le_or_lt k M with h | h
  · simp [Nat.not_lt.mpr h, Nat.min_eq_left h]
  · simp [h, Nat.min_eq_right h.le]

/-- The call `estimatedUsage` never changes `failureTimes` or `maxFailures`. -/
lemma estimatedUsage_preserves_counters (env : EstEnv) (st : EstState) (dev : DeviceSpec) :
    (estimatedUsage env st dev).st.failureTimes = st.failureTimes
    ∧ (estimatedUsage env st dev).st.maxFailures = st.maxFailures := by
  unfold estimatedUsage
  rcases h0 : decide (0 < st.failureTimes) with _ | _
  · have h0' : ¬ 0 < st.failureTimes := of_decide_eq_false h0
    rcases hc : st.cachedUsage dev with _ | r <;> simp [h0', hc]
  · have h0' : 0 < st.failureTimes := of_decide_eq_true h0
    rcases hsu : env.sessionUsage with _ | su
    · rcases hc : st.cachedUsage dev with _ | r <;> simp [h0', hsu, hc]
    · simp [h0', hsu, updateCache]

/-- After a call with `failureTimes = 0`, the cache at `dev` holds exactly
the returned map. -/
lemma estimatedUsage_caches (env : EstEnv) (st : EstState) (dev : DeviceSpec)
    (h : st.failureTimes = 0) :
    (estimatedUsage env st dev).st.cachedUsage dev = some (estimatedUsage env st dev).res := by
  unfold estimatedUsage
  rcases hc : st.cachedUsage dev with _ | r <;> simp [h, hc, updateCache]

/-! ## Concrete instances used by witnesses and counterexamples -/

/-- The device `gpu0`. -/
def gpu0 : DeviceSpec := ⟨DeviceType.GPU, 0⟩

/-- The device `cpu0`. -/
def cpu0 : DeviceSpec := ⟨DeviceType.CPU, 0⟩

/-- The tag `(MEMORY, gpu0)`. -/
def memGpu0 : ResourceTag := (ResourceType.MEMORY, gpu0)

/-- The tag `(MEMORY, cpu0)`. -/
def memCpu0 : ResourceTag := (ResourceType.MEMORY, cpu0)

/-- A `ResourceMap` with a single entry. -/
def singleRes (t : ResourceTag) (v : ℚ) : ResourceMap :=
  fun t' => if t' = t then v else 0

/-- Session usage `{temporary: (MEM, gpu0) → 1000, persistent: (MEM, gpu0) → 200}`
from scenario S2 of the spec. -/
def suS2 : SessionUsage := ⟨singleRes memGpu0 1000, singleRes memGpu0 200⟩

/-- Task state after the first OOM with `maxFailures = 4` and no cache. -/
def stS2 : EstState := ⟨1, 4, fun _ => none⟩

/-- Estimation environment for scenario S2 (the empirical path only reads
the session tracker). -/
def envS2 : EstEnv := ⟨some suS2, none, false, [], []⟩

/-! ## C1 — empirical estimation path -/

/-- C1: with failure count `k > 0` and retry limit `M`, the empirical path
of `estimatedUsage` returns the point-wise merge of the session tracker's
temporary and persistent usage scaled point-wise by
`1 / 2^(M + 1 - min(k, M))`. -/
theorem c1_empirical_scale (env : EstEnv) (st : EstState) (dev : DeviceSpec)
    (su : SessionUsage) (tag : ResourceTag)
    (hk : 0 < st.failureTimes) (hsu : env.sessionUsage = some su) :
    (estimatedUsage env st dev).res tag
      = (1 / 2 ^ (st.maxFailures + 1 - min st.failureTimes st.maxFailures))
        * (su.temporary tag + su.persistant tag) := by
  unfold estimatedUsage
  simp [hk, hsu, updateCache, mergeRes, scaleRes, clamp_eq_min]

/-- C1 witness (scenario S2): with `M = 4`, `k = 1` and merged session usage
1200 at `(MEMORY, gpu0)`, the estimate is 75. -/
theorem c1_witness :
    0 < stS2.failureTimes
    ∧ (estimatedUsage envS2 stS2 gpu0).res memGpu0 = 75 := by
  refine ⟨by decide, ?_⟩
  rw [c1_empirical_scale envS2 stS2 gpu0 suS2 memGpu0 (by decide) rfl]
  simp [suS2, singleRes, stS2]
  norm_num

/-! ## C3 — host-memory outputs and the cpu tag -/

/-- Estimation environment for the C3 failing input: shape information is
available, the node has a single output of known shape `[1]` whose dtype
has size 4 bytes, and the memory-type lookup succeeds reporting
`HOST_MEMORY` for that output. -/
def envC3 : EstEnv := ⟨none, some [some [some 1]], true, [MemType.HOST_MEMORY], [4]⟩

/-- A fresh task state: no failures yet, empty cache. -/
def stFresh : EstState := ⟨0, 4, fun _ => none⟩

/-- C3 (evaluation at the failing input): on `gpu0`, the 4 bytes of a
`HOST_MEMORY` output are charged to `(MEMORY, gpu0)` and nothing is
charged to `(MEMORY, cpu0)`, because `cpuTag` is constructed from `dev`
(exectask.cpp:202).  The claim (and spec §4.5) requires the charge to go
to `(MEMORY, cpu0)`, a tag distinct from `(MEMORY, gpu0)`. -/
theorem c3_hostmem_charged_to_dev :
    (estimatedUsage envC3 stFresh gpu0).res memGpu0 = 4
    ∧ (estimatedUsage envC3 stFresh gpu0).res memCpu0 = 0
    ∧ memCpu0 ≠ memGpu0 := by
  refine ⟨?_, ?_, by decide⟩ <;>
    simp [estimatedUsage, slowPath, chargeOutputs, updateRes, emptyRes, dimCount,
          envC3, stFresh, memGpu0, memCpu0, gpu0, cpu0]

/-! ## C8 — shape-inference contributions -/

/-- The amended per-output contribution, following the amended claim's
words: an output with unknown rank contributes zero; an output with known
rank contributes the product of its *known* dimensions times the dtype
size (unknown dimensions are skipped, i.e. treated as 1). -/
def specOutputBytes (sizes : List Nat) (i : Nat) (shp : ShapeOut) : ℚ :=
  match shp with
  | none => 0
  | some dims => ((dims.filterMap id).prod : ℚ) * (sizes.getD i 0 : ℚ)

/-- Total of the amended per-output contributions from index `i` on. -/
def specTotalBytes (sizes : List Nat) (i : Nat) (outs : List ShapeOut) : ℚ :=
  match outs with
  | [] => 0
  | shp :: rest => specOutputBytes sizes i shp + specTotalBytes sizes (i + 1) rest

/-- The dim loop computes the product of the known dimension values. -/
lemma dimCount_foldl (dims : List (Option Nat)) (c : Nat) :
    (dims.foldl (fun c d => match d with
      | some v => c * v
      | none => c) c) = c * (dims.filterMap id).prod := by
  induction dims generalizing c with
  | nil => simp
  | cons d rest ih =>
    cases d with
    | none => simpa using ih c
    | some v => simp [List.foldl_cons, ih (c * v), mul_assoc]

/-- The count `dimCount` is the product of the known dimension values. -/
lemma dimCount_eq (dims : List (Option Nat)) :
    dimCount dims = (dims.filterMap id).prod := by
  simpa using dimCount_foldl dims 1

/-- When both tags coincide, the charging loop adds the amended per-output
total to the accumulator at that tag. -/
lemma chargeOutputs_at (env : EstEnv) (t : ResourceTag) (outs : List ShapeOut) :
    ∀ (i : Nat) (res : ResourceMap),
      chargeOutputs env t t i outs res t
        = res t + specTotalBytes env.outputDtypeSizes i outs := by
  induction outs with
  | nil => intro i res; simp [chargeOutputs, specTotalBytes]
  | cons shp rest ih =>
    intro i res
    cases shp with
    | none =>
      simp [chargeOutputs, specTotalBytes, specOutputBytes, ih]
    | some dims =>
      simp only [chargeOutputs, specTotalBytes, specOutputBytes, ih, ite_self,
        updateRes, if_pos rfl, dimCount_eq]
      push_cast
      ring

/-- When both tags coincide, the charging loop leaves every other tag
untouched. -/
lemma chargeOutputs_ne (env : EstEnv) (t : ResourceTag) (outs : List ShapeOut) :
    ∀ (i : Nat) (res : ResourceMap) (t' : ResourceTag), t' ≠ t →
      chargeOutputs env t t i outs res t' = res t' := by
  induction outs with
  | nil => intro i res t' _; simp [chargeOutputs]
  | cons shp rest ih =>
    intro i res t' ht
    cases shp with
    | none => simp [chargeOutputs, ih _ _ _ ht]
    | some dims =>
      simp [chargeOutputs, ih _ _ _ ht, ite_self, updateRes, if_neg ht]

/-- A call that starts with no failures and a cache hit returns the cached
map unchanged, reads nothing external, and leaves the state untouched. -/
lemma estimatedUsage_cache_hit (env : EstEnv) (st : EstState) (dev : DeviceSpec)
    (r : ResourceMap) (hft : st.failureTimes = 0) (hc : st.cachedUsage dev = some r) :
    estimatedUsage env st dev = ⟨r, st, false⟩ := by
  unfold estimatedUsage
  simp [hft, hc]

/-- C8 (amended): in the shape-inference path (fresh task, no cached
value, shape information available) the estimate charges, at
`(MEMORY, dev)`, the sum over outputs of: zero when the output's rank is
unknown, and the product of the *known* dims times `sizeof(dtype)` when
the rank is known — unknown dimensions are skipped rather than zeroing
the output; every other tag stays zero. -/
theorem c8_amended (env : EstEnv) (st : EstState) (dev : DeviceSpec)
    (outs : List ShapeOut)
    (h0 : st.failureTimes = 0) (h1 : st.cachedUsage dev = none)
    (hs : env.shapeCtx = some outs) :
    (estimatedUsage env st dev).res (ResourceType.MEMORY, dev)
      = specTotalBytes env.outputDtypeSizes 0 outs
    ∧ ∀ tag, tag ≠ (ResourceType.MEMORY, dev) → (estimatedUsage env st dev).res tag = 0 := by
  have hres : (estimatedUsage env st dev).res = slowPath env dev := by
    unfold estimatedUsage
    simp [h0, h1]
  constructor
  · rw [hres]
    unfold slowPath
    rw [hs]
    simpa [emptyRes] using
      chargeOutputs_at env (ResourceType.MEMORY, dev) outs 0 emptyRes
  · intro tag ht
    rw [hres]
    unfold slowPath
    rw [hs]
    simpa [emptyRes] using
      chargeOutputs_ne env (ResourceType.MEMORY, dev) outs 0 emptyRes tag ht

/-- C8 witness: a node with two outputs — the first of unknown rank, the
second of known shape `[2, 3]` with 4-byte dtype — is charged
`0 + 2·3·4 = 24` at `(MEMORY, gpu0)`. -/
theorem c8_witness :
    (estimatedUsage ⟨none, some [none, some [some 2, some 3]], true,
        [MemType.DEVICE_MEMORY, MemType.DEVICE_MEMORY], [4, 4]⟩ stFresh gpu0).res memGpu0
      = 24 := by
  rw [memGpu0,
    (c8_amended ⟨none, some [none, some [some 2, some 3]], true,
        [MemType.DEVICE_MEMORY, MemType.DEVICE_MEMORY], [4, 4]⟩ stFresh gpu0
        [none, some [some 2, some 3]] rfl rfl rfl).1]
  simp [specTotalBytes, specOutputBytes]
  norm_num

/-- Estimation environment for the C8 counterexample: a single output of
known rank 2 whose first dimension is unknown and second is 3, dtype size
4 bytes. -/
def envC8 : EstEnv := ⟨none, some [some [none, some 3]], true, [MemType.DEVICE_MEMORY], [4]⟩

/-- C8 counterexample: the claim says an output some of whose dimensions
are unknown contributes zero; the code instead charges the product of the
known dims times the dtype size — here `3 · 4 = 12 ≠ 0` — because the
unknown-dimension `continue` (exectask.cpp:214-216) skips only that
dimension, not the whole output. -/
theorem c8_counterexample :
    (estimatedUsage envC8 stFresh gpu0).res memGpu0 = 12
    ∧ (estimatedUsage envC8 stFresh gpu0).res memGpu0 ≠ 0 := by
  have h : (estimatedUsage envC8 stFresh gpu0).res memGpu0 = 12 := by
    simp [estimatedUsage, slowPath, chargeOutputs, updateRes, emptyRes, dimCount,
          envC8, stFresh, memGpu0, gpu0]
    norm_num
  exact ⟨h, by rw [h]; norm_num⟩

/-! ## C9 — memoization across calls -/

/-- C9 (amended): while no OOM failure has been observed
(`failureTimes = 0`), a second call to `estimatedUsage` for the same
device — with *any* interleaving external environment — returns the same
map, does not query the session tracker, and leaves the task state
unchanged; so the cached estimate is stable within the initial failure
epoch. -/
theorem c9_amended (env env' : EstEnv) (st : EstState) (dev : DeviceSpec)
    (h : st.failureTimes = 0) :
    (estimatedUsage env' (estimatedUsage env st dev).st dev).res
        = (estimatedUsage env st dev).res
    ∧ (estimatedUsage env' (estimatedUsage env st dev).st dev).readTracker = false
    ∧ (estimatedUsage env' (estimatedUsage env st dev).st dev).st
        = (estimatedUsage env st dev).st := by
  have hft : (estimatedUsage env st dev).st.failureTimes = 0 :=
    (estimatedUsage_preserves_counters env st dev).1.trans h
  have hcache := estimatedUsage_caches env st dev h
  have hhit := estimatedUsage_cache_hit env' (estimatedUsage env st dev).st dev
    (estimatedUsage env st dev).res hft hcache
  exact ⟨by rw [hhit], by rw [hhit], by rw [hhit]⟩

/-- C9 witness: a fresh task on `gpu0` with shape info for one `[1]`-shaped
4-byte output; the second call returns the first call's map without
touching the tracker. -/
theorem c9_witness :
    (estimatedUsage envC3 (estimatedUsage envC3 stFresh gpu0).st gpu0).res
        = (estimatedUsage envC3 stFresh gpu0).res
    ∧ (estimatedUsage envC3 (estimatedUsage envC3 stFresh gpu0).st gpu0).readTracker = false :=
  ⟨(c9_amended envC3 envC3 stFresh gpu0 rfl).1,
   (c9_amended envC3 envC3 stFresh gpu0 rfl).2.1⟩

/-- First-call environment for the C9 counterexample: the session tracker
reports `{temporary: (MEM,gpu0) → 1000, persistent: (MEM,gpu0) → 200}`. -/
def envC9a : EstEnv := ⟨some ⟨singleRes memGpu0 1000, singleRes memGpu0 200⟩, none, false, [], []⟩

/-- Second-call environment for the C9 counterexample: the session tracker
now reports `{temporary: (MEM,gpu0) → 1400, persistent: (MEM,gpu0) → 200}`
(another task in the session ran in between; no OOM of *this* task
occurred). -/
def envC9b : EstEnv := ⟨some ⟨singleRes memGpu0 1400, singleRes memGpu0 200⟩, none, false, [], []⟩

/-- C9 counterexample: with `failureTimes = 1` (a single OOM *before* both
calls, none between them) the two calls return different maps — 75
vs. 100 at `(MEMORY, gpu0)` — and the second call re-reads the session
tracker instead of being served from `cachedUsage[dev]`: once
`failureTimes > 0`, every call recomputes from tracker state. -/
theorem c9_counterexample :
    (estimatedUsage envC9b (estimatedUsage envC9a stS2 gpu0).st gpu0).res memGpu0
        ≠ (estimatedUsage envC9a stS2 gpu0).res memGpu0
    ∧ (estimatedUsage envC9b (estimatedUsage envC9a stS2 gpu0).st gpu0).readTracker = true := by
  constructor
  · simp [estimatedUsage, envC9a, envC9b, stS2, updateCache, mergeRes, scaleRes,
          singleRes, memGpu0]
  · simp [estimatedUsage, envC9a, envC9b, stS2, updateCache]

/-! ## C2 / C7 — OOM handling -/

/-- C2: in every run cycle whose kernel completes with
`RESOURCE_EXHAUSTED` and whose caller supplied a `memFailure` callback,
the task increments `failureTimes` by exactly one, fires `memFailure`
exactly once, and does not fire `done`. -/
theorem c2_oom_memfailure (c : RunCfg)
    (h1 : ¬(c.needSetup = true ∧ c.setupOk = false))
    (h2 : c.allocAttrOk = true)
    (h3 : ¬(c.isDead = true ∧ c.isTransfer = false))
    (h4 : c.prepInputsOk = true)
    (h5 : c.kstatus = KStatus.resourceExhausted)
    (h6 : c.memFailureSupplied = true) :
    (run c).failDelta = 1
    ∧ (run c).trace.count Event.memFail = 1
    ∧ Event.doneEv ∉ (run c).trace := by
  rcases hns : c.needSetup with _ | _ <;> rcases hso : c.setupOk with _ | _ <;>
    rcases hka : c.kernelIsAsync with _ | _ <;>
    simp [run, h2, h3, h4, h5, h6, hns, hso, hka] at h1 ⊢

/-- C2 witness: a sync kernel on a live node hits `RESOURCE_EXHAUSTED`
with a `memFailure` callback supplied. -/
theorem c2_witness :
    (run ⟨⟨false, true, false, false, true, false, false, true,
        KStatus.resourceExhausted, true, false, true⟩, 1, [true]⟩).failDelta = 1
    ∧ (run ⟨⟨false, true, false, false, true, false, false, true,
        KStatus.resourceExhausted, true, false, true⟩, 1, [true]⟩).trace.count Event.memFail = 1
    ∧ Event.doneEv ∉ (run ⟨⟨false, true, false, false, true, false, false, true,
        KStatus.resourceExhausted, true, false, true⟩, 1, [true]⟩).trace :=
  c2_oom_memfailure _ (by decide) (by decide) (by decide) (by decide) (by decide) (by decide)

/-- The run cycle used as the C7 counterexample: a sync kernel on a live
node completes with `RESOURCE_EXHAUSTED` and no `memFailure` callback was
supplied. -/
def cfgC7 : RunCfg :=
  ⟨⟨false, true, false, false, true, false, false, true,
    KStatus.resourceExhausted, true, false, false⟩, 1, [true]⟩

/-- C7 counterexample: when the kernel completes with
`RESOURCE_EXHAUSTED` and no `memFailure` callback is supplied, `run` does
*not* surface the status through `done` — `maybeMemoryFailure` returns
true regardless (exectask.cpp:493-507), so neither `done` nor `memFailure`
fires in that cycle, refuting "exactly one of done and memFailure fires in
every cycle". -/
theorem c7_counterexample :
    (run cfgC7).doneStatus = none
    ∧ Event.doneEv ∉ (run cfgC7).trace
    ∧ Event.memFail ∉ (run cfgC7).trace := by decide

/-- On every trace template, `done` and `memFailure` each appear at most
once and never together. -/
lemma fires_once_of_mem : ∀ t ∈ allTraces,
    t.count Event.doneEv ≤ 1
    ∧ t.count Event.memFail ≤ 1
    ∧ ¬(Event.doneEv ∈ t ∧ Event.memFail ∈ t) := by decide

/-- C7 (amended): in every run cycle whose kernel completes with
`RESOURCE_EXHAUSTED` and with no `memFailure` callback supplied, the task
increments `failedTimes` and returns without firing either `done` or
`memFailure` (the status is not surfaced); and over all cycles, `done`
fires at most once, `memFailure` fires at most once, and they never both
fire. -/
theorem c7_amended :
    (∀ c : RunCfg,
      ¬(c.needSetup = true ∧ c.setupOk = false) →
      c.allocAttrOk = true →
      ¬(c.isDead = true ∧ c.isTransfer = false) →
      c.prepInputsOk = true →
      c.kstatus = KStatus.resourceExhausted →
      c.memFailureSupplied = false →
        (run c).failDelta = 1 ∧ (run c).doneStatus = none
        ∧ Event.doneEv ∉ (run c).trace ∧ Event.memFail ∉ (run c).trace)
    ∧ (∀ c : RunCfg,
        (run c).trace.count Event.doneEv ≤ 1
        ∧ (run c).trace.count Event.memFail ≤ 1
        ∧ ¬(Event.doneEv ∈ (run c).trace ∧ Event.memFail ∈ (run c).trace)) := by
  constructor
  · intro c h1 h2 h3 h4 h5 h6
    rcases hns : c.needSetup with _ | _ <;> rcases hso : c.setupOk with _ | _ <;>
      rcases hka : c.kernelIsAsync with _ | _ <;>
      simp [run, h2, h3, h4, h5, h6, hns, hso, hka] at h1 ⊢
  · intro c
    exact fires_once_of_mem _ (run_trace_mem c)

/-- C7 amended witness: the counterexample cycle, through the amended
theorem. -/
theorem c7_amended_witness :
    (run cfgC7).failDelta = 1 ∧ (run cfgC7).doneStatus = none
    ∧ Event.doneEv ∉ (run cfgC7).trace ∧ Event.memFail ∉ (run cfgC7).trace :=
  c7_amended.1 cfgC7 (by decide) (by decide) (by decide) (by decide) (by decide) (by decide)

/-! ## C4 — ordering guarantees -/

/-- On every trace template that contains `done`: `notify` precedes
`done`, `launched` occurs and precedes `done`, and any `propagate`
precedes `done`. -/
lemma ordering_of_mem : ∀ t ∈ allTraces, Event.doneEv ∈ t →
    (Event.notify ∈ t ∧ t.indexOf Event.notify < t.indexOf Event.doneEv)
    ∧ (Event.launched ∈ t ∧ t.indexOf Event.launched < t.indexOf Event.doneEv)
    ∧ (Event.propagate ∈ t → t.indexOf Event.propagate < t.indexOf Event.doneEv) := by
  decide

/-- C4: in every run cycle that ends in `done` (sync or async),
`num_finished_ops.notify()` strictly precedes `done`, `launched` fires and
strictly precedes `done`, and output propagation (when it occurs in the
cycle) strictly precedes `done`. -/
theorem c4_ordering (c : RunCfg) (h : Event.doneEv ∈ (run c).trace) :
    (Event.notify ∈ (run c).trace
      ∧ (run c).trace.indexOf Event.notify < (run c).trace.indexOf Event.doneEv)
    ∧ (Event.launched ∈ (run c).trace
      ∧ (run c).trace.indexOf Event.launched < (run c).trace.indexOf Event.doneEv)
    ∧ (Event.propagate ∈ (run c).trace →
        (run c).trace.indexOf Event.propagate < (run c).trace.indexOf Event.doneEv) :=
  ordering_of_mem _ (run_trace_mem c) h

/-- C4 witness: the happy synchronous cycle. -/
theorem c4_witness :
    (Event.notify ∈ (run ⟨⟨false, true, false, false, true, false, false, true,
          KStatus.ok, true, false, true⟩, 1, [true]⟩).trace
      ∧ (run ⟨⟨false, true, false, false, true, false, false, true,
          KStatus.ok, true, false, true⟩, 1, [true]⟩).trace.indexOf Event.notify
        < (run ⟨⟨false, true, false, false, true, false, false, true,
            KStatus.ok, true, false, true⟩, 1, [true]⟩).trace.indexOf Event.doneEv)
    ∧ (Event.launched ∈ (run ⟨⟨false, true, false, false, true, false, false, true,
          KStatus.ok, true, false, true⟩, 1, [true]⟩).trace
      ∧ (run ⟨⟨false, true, false, false, true, false, false, true,
          KStatus.ok, true, false, true⟩, 1, [true]⟩).trace.indexOf Event.launched
        < (run ⟨⟨false, true, false, false, true, false, false, true,
            KStatus.ok, true, false, true⟩, 1, [true]⟩).trace.indexOf Event.doneEv)
    ∧ (Event.propagate ∈ (run ⟨⟨false, true, false, false, true, false, false, true,
          KStatus.ok, true, false, true⟩, 1, [true]⟩).trace →
        (run ⟨⟨false, true, false, false, true, false, false, true,
            KStatus.ok, true, false, true⟩, 1, [true]⟩).trace.indexOf Event.propagate
          < (run ⟨⟨false, true, false, false, true, false, false, true,
              KStatus.ok, true, false, true⟩, 1, [true]⟩).trace.indexOf Event.doneEv) :=
  c4_ordering _ (by decide)

/-! ## C5 — dead nodes -/

/-- C5: a node marked dead that is not a transfer node skips kernel
compute, resizes the outputs to `num_outputs` empty entries, and still
propagates them so downstream nodes become ready; a dead transfer node
has its kernel invoked despite the dead bit. -/
theorem c5_dead_node (c : RunCfg)
    (hd : c.isDead = true)
    (h1 : ¬(c.needSetup = true ∧ c.setupOk = false))
    (h2 : c.allocAttrOk = true) :
    (c.isTransfer = false →
       Event.compute ∉ (run c).trace
       ∧ (run c).propagated = some (List.replicate c.numOutputs false)
       ∧ Event.propagate ∈ (run c).trace)
    ∧ (c.isTransfer = true → c.prepInputsOk = true →
       Event.compute ∈ (run c).trace) := by
  constructor
  · intro htr
    rcases hns : c.needSetup with _ | _ <;> rcases hso : c.setupOk with _ | _ <;>
      simp [run, finishEvents, hd, htr, h2, hns, hso] at h1 ⊢
  · intro htr hpi
    rcases hns : c.needSetup with _ | _ <;> rcases hso : c.setupOk with _ | _ <;>
      rcases hka : c.kernelIsAsync with _ | _ <;> rcases hks : c.kstatus with _ | _ | _ <;>
      simp [run, postEvents, postStatus, finishEvents, hd, htr, hpi, h2, hns, hso, hka,
        hks] at h1 ⊢

/-- C5 witness: a dead non-transfer node with two outputs, and a dead
transfer node. -/
theorem c5_witness :
    (Event.compute ∉ (run ⟨⟨false, true, false, false, true, true, false, true,
        KStatus.ok, true, false, true⟩, 2, []⟩).trace
      ∧ (run ⟨⟨false, true, false, false, true, true, false, true,
          KStatus.ok, true, false, true⟩, 2, []⟩).propagated
        = some (List.replicate 2 false)
      ∧ Event.propagate ∈ (run ⟨⟨false, true, false, false, true, true, false, true,
          KStatus.ok, true, false, true⟩, 2, []⟩).trace)
    ∧ Event.compute ∈ (run ⟨⟨false, true, false, false, true, true, true, true,
        KStatus.ok, true, false, true⟩, 2, []⟩).trace :=
  ⟨(c5_dead_node _ (by decide) (by decide) (by decide)).1 (by decide),
   (c5_dead_node _ (by decide) (by decide) (by decide)).2 (by decide) (by decide)⟩

/-! ## C6 / C10 — prepare -/

/-- The call `prepare` performs no `ResourceMonitor` operation and never writes
the kernel cache, whatever its outcome. -/
lemma prepare_frame (env : PrepEnv) (st : PrepState) (ctx : ResourceContext) :
    (prepare env st ctx).monOps = []
    ∧ (prepare env st ctx).cacheAfter = env.kernelCache := by
  unfold prepare
  rcases hsup : env.supportedTypes.contains ctx.spec.type with _ | _ <;>
    rcases hlk : env.lookupOk with _ | _ <;> rcases hfd : env.findOk with _ | _ <;>
    rcases hkc : env.kernelCache with _ | d <;>
    simp [hsup, hlk, hfd, hkc] <;> split_ifs <;> simp

/-- The call `prepare` installs the argument context into `rctx` first, before any
validation, whatever its outcome. -/
lemma prepare_stores_rctx (env : PrepEnv) (st : PrepState) (ctx : ResourceContext) :
    (prepare env st ctx).st.rctx = ctx := by
  unfold prepare
  rcases hsup : env.supportedTypes.contains ctx.spec.type with _ | _ <;>
    rcases hlk : env.lookupOk with _ | _ <;> rcases hfd : env.findOk with _ | _ <;>
    rcases hkc : env.kernelCache with _ | d <;>
    simp [hsup, hlk, hfd, hkc] <;> split_ifs <;> simp

/-- C6: `prepare` returns false — performing no reserve, allocate or free
on the resource monitor, and leaving the cached kernel in the global
cache — whenever the device kind is unsupported, the device lookup fails,
or a previously-created kernel is recorded on a device other than the
requested one. -/
theorem c6_prepare_rejects (env : PrepEnv) (st : PrepState) (ctx : ResourceContext)
    (h : env.supportedTypes.contains ctx.spec.type = false
       ∨ env.lookupOk = false
       ∨ ∃ d, env.findOk = true ∧ env.kernelCache = some d ∧ d ≠ deviceName ctx.spec) :
    (prepare env st ctx).ok = false
    ∧ (prepare env st ctx).monOps = []
    ∧ (prepare env st ctx).cacheAfter = env.kernelCache := by
  refine ⟨?_, (prepare_frame env st ctx).1, (prepare_frame env st ctx).2⟩
  rcases h with h | h | ⟨d, hfd, hkc, hne⟩
  · have h' : ctx.spec.type ∉ env.supportedTypes := by simpa using h
    simp [prepare, h']
  · by_cases hsup : ctx.spec.type ∈ env.supportedTypes <;> simp [prepare, hsup, h]
  · by_cases hsup : ctx.spec.type ∈ env.supportedTypes <;>
      rcases hlk : env.lookupOk with _ | _ <;>
      simp [prepare, hsup, hlk, hfd, hkc] <;> split_ifs <;> simp_all

/-- C6 witness (scenario S3): the kernel was created on `cpu0`;
`prepare` for `gpu0` returns false, touches no reservation, and the
cached kernel survives. -/
theorem c6_witness :
    (prepare ⟨[DeviceType.CPU, DeviceType.GPU], true, true, some ("CPU:0")⟩
        ⟨⟨cpu0, 7, true⟩, none⟩ ⟨gpu0, 9, true⟩).ok = false
    ∧ (prepare ⟨[DeviceType.CPU, DeviceType.GPU], true, true, some ("CPU:0")⟩
        ⟨⟨cpu0, 7, true⟩, none⟩ ⟨gpu0, 9, true⟩).monOps = []
    ∧ (prepare ⟨[DeviceType.CPU, DeviceType.GPU], true, true, some ("CPU:0")⟩
        ⟨⟨cpu0, 7, true⟩, none⟩ ⟨gpu0, 9, true⟩).cacheAfter = some ("CPU:0") :=
  c6_prepare_rejects _ _ _
    (Or.inr (Or.inr ⟨"CPU:0", rfl, rfl, by decide⟩))

/-- C10: `prepare` stores `ctx` into the task's resource context before
validating anything, so even on a false return the previously stored
`ResourceContext` has been replaced, and a subsequent
`releasePreAllocation` frees the rejected context's ticket. -/
theorem c10_ctx_stored (env : PrepEnv) (st : PrepState) (ctx : ResourceContext)
    (hmon : ctx.hasResMon = true)
    (hfail : (prepare env st ctx).ok = false) :
    (prepare env st ctx).st.rctx = ctx
    ∧ releasePreAllocation (prepare env st ctx).st = [MonOp.freeOp ctx.ticket] := by
  refine ⟨prepare_stores_rctx env st ctx, ?_⟩
  simp [releasePreAllocation, prepare_stores_rctx env st ctx, hmon]

/-- C10 witness: an unsupported-device `prepare` that replaces a stored
context with ticket 7 by the rejected context with ticket 9; release then
frees ticket 9. -/
theorem c10_witness :
    (prepare ⟨[DeviceType.CPU], true, true, none⟩
        ⟨⟨cpu0, 7, true⟩, none⟩ ⟨gpu0, 9, true⟩).st.rctx = (⟨gpu0, 9, true⟩ : ResourceContext)
    ∧ releasePreAllocation (prepare ⟨[DeviceType.CPU], true, true, none⟩
        ⟨⟨cpu0, 7, true⟩, none⟩ ⟨gpu0, 9, true⟩).st = [MonOp.freeOp 9] :=
  c10_ctx_stored _ _ _ (by decide) (by decide)

end Salus
